import Mathlib

/-!
# Verification of the car email notification service

A shallow embedding, in Lean 4, of the notification ingestion and templated
email dispatch service (FastAPI application under `src/`), together with
theorems about the claims of its specification.

Conventions of the embedding:
* Python dictionaries with string keys are association lists (`List (String × Json)`)
  whose lookup takes the first matching key (Python keys are unique).
* Python truthiness is made explicit (`PyValue.truthy`, `optTruthy`): `None`,
  the empty string, `0` and `False` are falsy.
* Wall-clock readings (`datetime.now(timezone.utc).isoformat()`) are passed in
  as explicit string parameters; `uuid.uuid4()` is modelled as an injective
  fresh-identifier supply driven by a per-process counter.
* Fallible operations return `Except HTTPError _`; raising `HTTPException`
  is returning `.error`, and `try/except` blocks are `match`es on the result.
* The SQL store is a list of rows; `SELECT`/`COUNT` semantics (conjunctive
  `WHERE`, `ORDER BY stored_at DESC`, `LIMIT`/`OFFSET`) are modelled over it,
  with ISO-8601 UTC timestamp comparison modelled as lexicographic string
  comparison (which coincides with chronological order for such strings).
-/

namespace CarEmail

/-- JSON-compatible values, the payload/metadata value type. -/
inductive Json where
  | str (s : String)
  | num (n : Int)
  | bool (b : Bool)
  | null
  deriving Repr, DecidableEq

/-- A JSON object (Python dict with string keys) as an association list. -/
abbrev JsonObj := List (String × Json)

/-- A Python value as passed to keyword arguments of the template renderer. -/
inductive PyValue where
  | str (s : String)
  | int (n : Int)
  | bool (b : Bool)
  | none
  deriving Repr, DecidableEq

/-- Python truthiness of a `PyValue`: `None`, `""`, `0` and `False` are falsy. -/
def PyValue.truthy : PyValue → Bool
  | .str s => s ≠ ""
  | .int n => n ≠ 0
  | .bool b => b
  | .none => false

/-- Python `str(...)` of a `PyValue`. -/
def PyValue.toStr : PyValue → String
  | .str s => s
  | .int n => toString n
  | .bool b => if b then "True" else "False"
  | .none => "None"

/-- An optional string viewed as the Python value it came from (`None` or `str`). -/
def optPy : Option String → PyValue
  | some s => .str s
  | Option.none => .none

/-- Python truthiness of an `Optional[str]`. -/
def optTruthy (o : Option String) : Bool := (optPy o).truthy

/-- Python `o or ""` on an `Optional[str]`. -/
def optOrEmpty (o : Option String) : String :=
  if optTruthy o then o.getD "" else ""

/-! ## String replacement (Python `str.replace`)

`str.replace(pat, rep)` replaces every non-overlapping occurrence of `pat`,
scanning left to right.  Implemented on character lists with an explicit fuel
argument (the length of the string) so that it is structural recursion and
evaluates inside the kernel. -/

/-- One fuel-indexed step list: replace occurrences of `pat` by `rep`. -/
def replaceFuel (pat rep : List Char) : Nat → List Char → List Char
  | _, [] => []
  | 0, l => l
  | fuel + 1, c :: cs =>
    if pat.isPrefixOf (c :: cs) ∧ pat ≠ [] then
      rep ++ replaceFuel pat rep fuel ((c :: cs).drop pat.length)
    else
      c :: replaceFuel pat rep fuel cs

/-- Python `s.replace(pat, rep)` for a non-empty `pat` (placeholders are never
empty; Python's empty-pattern behaviour is not needed and not modelled). -/
def strReplace (s pat rep : String) : String :=
  String.mk (replaceFuel pat.data rep.data s.data.length s.data)

/-! ## `src/services/TemplateRenderer.py` -/

/-- `TemplateRenderer.render_template`: for each keyword argument `(key, value)`
in order, replace every occurrence of the placeholder `{{key}}` by
`str(value)` if `value` is truthy, else by the empty string. -/
def render_template (template_content : String) (kwargs : List (String × PyValue)) : String :=
  kwargs.foldl
    (fun acc kv =>
      strReplace acc ("\x7b\x7b" ++ kv.1 ++ "\x7d\x7d")
        (if kv.2.truthy then kv.2.toStr else ""))
    template_content

/-- `TemplateRenderer.build_section`: return `content` if `condition` is truthy,
the empty string otherwise. -/
def build_section (condition : PyValue) (content : String) : String :=
  if condition.truthy then content else ""

/-! ## Lexicographic order on strings

Kernel-evaluable lexicographic comparison of character lists, used to model the
SQL ordering of the `stored_at` column (ISO-8601 UTC strings compare
lexicographically exactly as the timestamps they denote compare
chronologically). -/

/-- Lexicographic `≤` on character lists. -/
def charListLe : List Char → List Char → Bool
  | [], _ => true
  | _ :: _, [] => false
  | a :: as, b :: bs => if a = b then charListLe as bs else decide (a < b)

/-- Lexicographic `≤` on strings. -/
def strLe (a b : String) : Bool := charListLe a.data b.data

/-- Lexicographic `<` on strings: `≤` and not equal. -/
def strLt (a b : String) : Bool := strLe a b ∧ a ≠ b

/-! ## Errors (`fastapi.HTTPException`) -/

/-- A raised `HTTPException`: status code and detail string. -/
structure HTTPError where
  status : Nat
  detail : String
  deriving Repr, DecidableEq

/-- Python `str(HTTPException(status, detail))`, as used when a handler wraps a
caught exception into a new detail string: `"{status_code}: {detail}"`. -/
def HTTPError.toStr (e : HTTPError) : String := toString e.status ++ ": " ++ e.detail

instance {ε α : Type} [DecidableEq ε] [DecidableEq α] : DecidableEq (Except ε α) := fun x y =>
  match x, y with
  | .ok a, .ok b =>
      if h : a = b then isTrue (by rw [h])
      else isFalse (by intro hc; cases hc; exact h rfl)
  | .error a, .error b =>
      if h : a = b then isTrue (by rw [h])
      else isFalse (by intro hc; cases hc; exact h rfl)
  | .ok _, .error _ => isFalse (by intro hc; cases hc)
  | .error _, .ok _ => isFalse (by intro hc; cases hc)

/-! ## Data model (`src/dto/request/NotificationRequest.py`)

The request body accepted by `POST /notification-service/notifications`.
Pydantic validation (non-empty bounded `notification_type`/`source`, `priority`
matching `^(normal|high|urgent)$`, `reference_id` length ≤ 200) happens at the
framework boundary; `valid` below records it. -/

/-- The parsed `NotificationRequest` body (after pydantic parsing). -/
structure NotificationRequest where
  notification_type : String
  source : String
  payload : JsonObj
  priority : Option String := some "normal"
  timestamp : Option String := none
  reference_id : Option String := none
  metadata : Option JsonObj := none
  deriving Repr, DecidableEq

/-- The pydantic field constraints of `NotificationRequest`. -/
def NotificationRequest.valid (n : NotificationRequest) : Prop :=
  1 ≤ n.notification_type.length ∧ n.notification_type.length ≤ 100 ∧
  1 ≤ n.source.length ∧ n.source.length ≤ 100 ∧
  (∀ p, n.priority = some p → p = "normal" ∨ p = "high" ∨ p = "urgent") ∧
  (∀ r, n.reference_id = some r → r.length ≤ 200)

/-! ## Storage (`src/services/NotificationService.py` over `src/db/DataBase.py`)

The `notifications` table is a list of rows in insertion order.  A database
fault of `execute_update`/`execute_query` is modelled by an explicit
`Option String` parameter (`none` = healthy, `some msg` = the raised error's
message).  `uuid.uuid4()` is an opaque supply of fresh identifiers; it is
modelled as an injective function of a per-process counter. -/

/-- One persisted row of the `notifications` table. -/
structure NotificationRow where
  notification_id : String
  notification_type : String
  source : String
  payload : JsonObj
  priority : Option String
  timestamp : String
  reference_id : Option String
  metadata : Option JsonObj
  stored_at : String
  deriving Repr, DecidableEq

/-- Server-side storage state: the fresh-uuid counter and the table. -/
structure ServerState where
  counter : Nat
  table : List NotificationRow
  deriving Repr, DecidableEq

/-- The empty initial state. -/
def initialState : ServerState := { counter := 0, table := [] }

/-- The identifier produced by the `k`-th draw from the uuid4 supply
(modelled injectively; distinct draws never collide). -/
def uuidOf (k : Nat) : String := String.mk (List.replicate (k + 1) 'u')

/-- The confirmation dictionary returned by `store_notification`. -/
structure StorageConfirmation where
  notification_id : String
  notification_type : String
  source : String
  stored_at : String
  deriving Repr, DecidableEq

/-- `NotificationService.store_notification`, translated from the source.
`now` is the reading `datetime.now(timezone.utc).isoformat()` returns during
this call (used both for the `timestamp` default and for `stored_at`, which the
source computes with two separate `now()` calls in immediate succession;
modelling them as equal loses nothing the claims depend on), and `dbFault`
is the outcome of `Database.execute_update` for the insert. -/
def store_notification (n : NotificationRequest) (now : String) (dbFault : Option String)
    (st : ServerState) : Except HTTPError (StorageConfirmation × ServerState) :=
  let notification_id := uuidOf st.counter
  -- `if not timestamp:` — Python truthiness: `None` and `""` are both replaced
  let timestamp := match n.timestamp with
    | some t => if t = "" then now else t
    | none => now
  -- `json.dumps(...) if notification_data.get("metadata") else None` —
  -- an absent or empty (falsy) metadata mapping is stored as NULL
  let metadata := match n.metadata with
    | some m => if m = [] then none else some m
    | none => none
  let row : NotificationRow :=
    { notification_id := notification_id
      notification_type := n.notification_type
      source := n.source
      payload := n.payload
      priority := n.priority
      timestamp := timestamp
      reference_id := n.reference_id
      metadata := metadata
      stored_at := now }
  match dbFault with
  | some msg => .error ⟨500, "Error storing notification: " ++ msg⟩
  | none =>
      .ok ({ notification_id := notification_id
             notification_type := n.notification_type
             source := n.source
             stored_at := now },
           { counter := st.counter + 1, table := st.table ++ [row] })

/-- A healthy-database insertion sequence: fold `store_notification` over a
list of (request, clock reading) pairs. -/
def storeSeq (ps : List (NotificationRequest × String)) (st : ServerState) : ServerState :=
  ps.foldl
    (fun acc p =>
      match store_notification p.1 p.2 none acc with
      | .ok r => r.2
      | .error _ => acc)
    st

/-- The `WHERE` predicate `get_notifications` builds: one `column = value`
clause per *truthy* filter argument (`if notification_type:` etc. — a `None`
or empty-string filter contributes no clause), conjoined. A SQL comparison
`priority = v` is false on a NULL column. -/
def listWhere (notification_type source priority : Option String)
    (r : NotificationRow) : Bool :=
  (match notification_type with
   | some f => if f = "" then true else r.notification_type = f
   | none => true) &&
  (match source with
   | some f => if f = "" then true else r.source = f
   | none => true) &&
  (match priority with
   | some f => if f = "" then true else r.priority = some f
   | none => true)

/-- The descending `stored_at` ordering used by `ORDER BY stored_at DESC`. -/
def storedAtGe (a b : NotificationRow) : Prop := strLe b.stored_at a.stored_at = true

instance : DecidableRel storedAtGe := fun _ _ => instDecidableEqBool _ _

/-- The rows of the table ordered by `stored_at` descending (`ORDER BY
stored_at DESC`; the SQL leaves the relative order of ties unspecified and the
sort picks one realization of it). -/
def orderByStoredAtDesc (rows : List NotificationRow) : List NotificationRow :=
  rows.insertionSort storedAtGe

/-- `NotificationService.get_notifications`, translated from the source:
dynamic conjunctive `WHERE`, `ORDER BY stored_at DESC`, `LIMIT limit OFFSET
offset` (the offset is applied before the limit). -/
def get_notifications (notification_type source priority : Option String)
    (limit offset : Nat) (table : List NotificationRow) : List NotificationRow :=
  (((orderByStoredAtDesc (table.filter (listWhere notification_type source priority))).drop
      offset).take limit)

/-- The `WHERE` predicate `get_notification_count` builds — the source
duplicates the clause-building code of `get_notifications`, so it is
translated separately here. -/
def countWhere (notification_type source priority : Option String)
    (r : NotificationRow) : Bool :=
  (match notification_type with
   | some f => if f = "" then true else r.notification_type = f
   | none => true) &&
  (match source with
   | some f => if f = "" then true else r.source = f
   | none => true) &&
  (match priority with
   | some f => if f = "" then true else r.priority = some f
   | none => true)

/-- `NotificationService.get_notification_count`, translated from the source:
`SELECT COUNT(*)` under the same dynamically built conjunctive `WHERE`. -/
def get_notification_count (notification_type source priority : Option String)
    (table : List NotificationRow) : Nat :=
  (table.filter (countWhere notification_type source priority)).length

/-- The spec-side matching predicate: a row matches a filter combination when
every *supplied* filter equals the corresponding column. -/
def matchesFilters (notification_type source priority : Option String)
    (r : NotificationRow) : Prop :=
  (∀ f, notification_type = some f → r.notification_type = f) ∧
  (∀ f, source = some f → r.source = f) ∧
  (∀ f, priority = some f → r.priority = some f)

/-! ## `GET /notification-service/notifications` (`src/app.py`) -/

/-- The pagination metadata of the paginated response. -/
structure PaginationMeta where
  total : Nat
  page : Nat
  page_size : Nat
  total_pages : Nat
  deriving Repr, DecidableEq

/-- The body of `GET /notification-service/notifications`. -/
structure PaginatedNotificationsResponse where
  notifications : List NotificationRow
  pagination : PaginationMeta
  deriving Repr, DecidableEq

/-- The `GET /notification-service/notifications` endpoint, translated from the
source.  FastAPI's query validation (`page ≥ 1`, `1 ≤ page_size ≤ 100`) rejects
out-of-range values with a 422 before the handler body runs; inside the body,
`offset = (page - 1) * page_size`, `total` is the filtered count, and
`total_pages = math.ceil(total / page_size)` when `total > 0` else `0` (the
Python float ceiling is exact for these magnitudes and is modelled by exact
natural ceiling division). -/
def api_get_notifications (page page_size : Nat)
    (notification_type source priority : Option String)
    (table : List NotificationRow) :
    Except HTTPError PaginatedNotificationsResponse :=
  if page < 1 then
    .error ⟨422, "Input should be greater than or equal to 1"⟩
  else if page_size < 1 then
    .error ⟨422, "Input should be greater than or equal to 1"⟩
  else if 100 < page_size then
    .error ⟨422, "Input should be less than or equal to 100"⟩
  else
    let offset := (page - 1) * page_size
    let total_count := get_notification_count notification_type source priority table
    let notifications :=
      get_notifications notification_type source priority page_size offset table
    let total_pages := if 0 < total_count
      then (total_count + page_size - 1) / page_size
      else 0
    .ok { notifications := notifications
          pagination :=
            { total := total_count
              page := page
              page_size := page_size
              total_pages := total_pages } }

/-! ## Dispatch payload shapes

`MailService.send_purchase_status_update` reads the fields `to_email`,
`customer_name`, `car_make`, `car_model`, `car_year`, `chassis_number`, … of
its argument.  The class with those fields is not present under `src/` (the
`PurchasingStatusEmail` DTO in `src/dto/request/` carries older names —
`email`, `make`, `model`, `chassis_id` — which `MailService` never touches),
so the shape is modelled from the spec. -/

/-- Python `f"{o}"` of an `Optional[str]` (`str(None) = "None"`). -/
def fStr : Option String → String
  | some s => s
  | none => "None"

/-- Modelled from the spec: the expected payload shape of the
`purchase_status` notification type (§3, §4.2), the class consumed by
`MailService.send_purchase_status_update` but absent from `src/`.  Required
fields per the spec: recipient email, customer name, make/model and
`new_status`; every other descriptive field is optional. -/
structure PurchasingStatusEmail where
  to_email : String
  customer_name : String
  car_make : String
  car_model : String
  car_year : Option String := none
  chassis_number : Option String := none
  old_status : Option String := none
  new_status : String
  purchase_order_id : Option String := none
  lc_number : Option String := none
  supplier_name : Option String := none
  port_of_loading : Option String := none
  expected_shipping_date : Option String := none
  purchase_price : Option String := none
  currency : Option String := none
  notes : Option String := none
  contact_person : Option String := none
  deriving Repr, DecidableEq

/-- The `ShippingStatusEmail` DTO, translated from
`src/dto/request/ShippingStatusEmail.py`. -/
structure ShippingStatusEmail where
  to_email : String
  customer_name : String
  car_make : String
  car_model : String
  car_year : Option String := none
  chassis_number : Option String := none
  old_status : Option String := none
  new_status : String
  shipping_order_id : Option String := none
  vessel_name : Option String := none
  voyage_number : Option String := none
  container_number : Option String := none
  bill_of_lading : Option String := none
  port_of_loading : Option String := none
  port_of_discharge : Option String := none
  estimated_arrival_date : Option String := none
  actual_arrival_date : Option String := none
  delivery_date : Option String := none
  tracking_url : Option String := none
  notes : Option String := none
  contact_person : Option String := none
  deriving Repr, DecidableEq

/-- Read a required string field of a payload object. -/
def getReqStr (p : JsonObj) (k : String) : Except String String :=
  match p.lookup k with
  | some (Json.str s) => .ok s
  | some _ => .error ("field " ++ k ++ " must be a string")
  | none => .error ("missing required field " ++ k)

/-- Read an optional string field of a payload object (absent or `null` is
`none`). -/
def getOptStr (p : JsonObj) (k : String) : Except String (Option String) :=
  match p.lookup k with
  | some (Json.str s) => .ok (some s)
  | some Json.null => .ok none
  | some _ => .error ("field " ++ k ++ " must be a string")
  | none => .ok none

/-- The field names of the purchase shape. -/
def purchaseFields : List String :=
  ["to_email", "customer_name", "car_make", "car_model", "car_year",
   "chassis_number", "old_status", "new_status", "purchase_order_id",
   "lc_number", "supplier_name", "port_of_loading", "expected_shipping_date",
   "purchase_price", "currency", "notes", "contact_person"]

/-- Modelled from the spec: strict conversion of a generic payload into the
purchase shape (§4.3: "unknown/missing-required fields → `InvalidPayload`,
surfacing the original conversion error message"); the conversion routine is
part of the absent `MailService.send_mail` dispatch path. -/
def toPurchasingStatusEmail (p : JsonObj) : Except String PurchasingStatusEmail :=
  match p.find? (fun kv => !(purchaseFields.contains kv.1)) with
  | some kv => .error ("unknown field " ++ kv.1)
  | none => do
    let to_email ← getReqStr p "to_email"
    let customer_name ← getReqStr p "customer_name"
    let car_make ← getReqStr p "car_make"
    let car_model ← getReqStr p "car_model"
    let new_status ← getReqStr p "new_status"
    let car_year ← getOptStr p "car_year"
    let chassis_number ← getOptStr p "chassis_number"
    let old_status ← getOptStr p "old_status"
    let purchase_order_id ← getOptStr p "purchase_order_id"
    let lc_number ← getOptStr p "lc_number"
    let supplier_name ← getOptStr p "supplier_name"
    let port_of_loading ← getOptStr p "port_of_loading"
    let expected_shipping_date ← getOptStr p "expected_shipping_date"
    let purchase_price ← getOptStr p "purchase_price"
    let currency ← getOptStr p "currency"
    let notes ← getOptStr p "notes"
    let contact_person ← getOptStr p "contact_person"
    pure { to_email := to_email, customer_name := customer_name,
           car_make := car_make, car_model := car_model, car_year := car_year,
           chassis_number := chassis_number, old_status := old_status,
           new_status := new_status, purchase_order_id := purchase_order_id,
           lc_number := lc_number, supplier_name := supplier_name,
           port_of_loading := port_of_loading,
           expected_shipping_date := expected_shipping_date,
           purchase_price := purchase_price, currency := currency,
           notes := notes, contact_person := contact_person }

/-- The field names of the shipping shape. -/
def shippingFields : List String :=
  ["to_email", "customer_name", "car_make", "car_model", "car_year",
   "chassis_number", "old_status", "new_status", "shipping_order_id",
   "vessel_name", "voyage_number", "container_number", "bill_of_lading",
   "port_of_loading", "port_of_discharge", "estimated_arrival_date",
   "actual_arrival_date", "delivery_date", "tracking_url", "notes",
   "contact_person"]

/-- Modelled from the spec: strict conversion of a generic payload into the
shipping shape (§4.3), against the `ShippingStatusEmail` DTO of `src/`. -/
def toShippingStatusEmail (p : JsonObj) : Except String ShippingStatusEmail :=
  match p.find? (fun kv => !(shippingFields.contains kv.1)) with
  | some kv => .error ("unknown field " ++ kv.1)
  | none => do
    let to_email ← getReqStr p "to_email"
    let customer_name ← getReqStr p "customer_name"
    let car_make ← getReqStr p "car_make"
    let car_model ← getReqStr p "car_model"
    let new_status ← getReqStr p "new_status"
    let car_year ← getOptStr p "car_year"
    let chassis_number ← getOptStr p "chassis_number"
    let old_status ← getOptStr p "old_status"
    let shipping_order_id ← getOptStr p "shipping_order_id"
    let vessel_name ← getOptStr p "vessel_name"
    let voyage_number ← getOptStr p "voyage_number"
    let container_number ← getOptStr p "container_number"
    let bill_of_lading ← getOptStr p "bill_of_lading"
    let port_of_loading ← getOptStr p "port_of_loading"
    let port_of_discharge ← getOptStr p "port_of_discharge"
    let estimated_arrival_date ← getOptStr p "estimated_arrival_date"
    let actual_arrival_date ← getOptStr p "actual_arrival_date"
    let delivery_date ← getOptStr p "delivery_date"
    let tracking_url ← getOptStr p "tracking_url"
    let notes ← getOptStr p "notes"
    let contact_person ← getOptStr p "contact_person"
    pure { to_email := to_email, customer_name := customer_name,
           car_make := car_make, car_model := car_model, car_year := car_year,
           chassis_number := chassis_number, old_status := old_status,
           new_status := new_status, shipping_order_id := shipping_order_id,
           vessel_name := vessel_name, voyage_number := voyage_number,
           container_number := container_number,
           bill_of_lading := bill_of_lading,
           port_of_loading := port_of_loading,
           port_of_discharge := port_of_discharge,
           estimated_arrival_date := estimated_arrival_date,
           actual_arrival_date := actual_arrival_date,
           delivery_date := delivery_date, tracking_url := tracking_url,
           notes := notes, contact_person := contact_person }

/-! ## `src/services/MailService.py`

`MailServer.send_email` (the SMTP transport) is an opaque capability that
never raises for business reasons: it returns a boolean.  It is modelled by
the `mailOk` parameter (the boolean this call returns) and the handlers also
return the list of transport invocations they performed, so that "the mail
capability is not invoked" is expressible.  `load_template` (file I/O) is
abstracted by passing the loaded template text as the `template_content`
parameter. -/

/-- One invocation of `MailServer.send_email`. -/
structure SendAttempt where
  to_email : String
  subject : String
  body : String
  deriving Repr, DecidableEq

/-- The `details` dictionary of a handler's success payload. -/
inductive EmailDetails where
  | purchase (car : String) (new_status : String) (purchase_order_id : Option String)
  | shipping (car : String) (new_status : String) (shipping_order_id : Option String)
      (tracking_url : Option String)
  deriving Repr, DecidableEq

/-- A handler's success payload. -/
structure EmailSuccess where
  status : String
  message : String
  details : EmailDetails
  deriving Repr, DecidableEq

/-- `MailService.send_purchase_status_update`, translated from the source.
On transport failure the source raises `HTTPException(500, "Failed to send
email")` inside its own `try`, so its catch-all re-wraps it into
`HTTPException(500, f"Error: {str(e)}")` — the observable detail is
`"Error: 500: Failed to send email"`. -/
def send_purchase_status_update (template_content : String) (mailOk : Bool)
    (purchase : PurchasingStatusEmail) :
    Except HTTPError EmailSuccess × List SendAttempt :=
  let car_info := purchase.car_make ++ " " ++ purchase.car_model
  let car_info := if optTruthy purchase.car_year
    then car_info ++ " (" ++ fStr purchase.car_year ++ ")"
    else car_info
  let status_message := if optTruthy purchase.old_status
    then "Great news! Your vehicle purchase status has been updated from <strong>"
      ++ fStr purchase.old_status ++ "</strong> to <strong>"
      ++ purchase.new_status ++ "</strong>."
    else "Your vehicle purchase status is now: <strong>" ++ purchase.new_status ++ "</strong>"
  let chassis_section := build_section (optPy purchase.chassis_number)
    ("<div class=\"info-item\"><strong>Chassis Number:</strong> "
      ++ fStr purchase.chassis_number ++ "</div>")
  let po_section := build_section (optPy purchase.purchase_order_id)
    ("<div class=\"info-item\"><strong>Purchase Order:</strong> "
      ++ fStr purchase.purchase_order_id ++ "</div>")
  let lc_section := build_section (optPy purchase.lc_number)
    ("<div class=\"info-item\"><strong>LC Number:</strong> "
      ++ fStr purchase.lc_number ++ "</div>")
  let supplier_section := build_section (optPy purchase.supplier_name)
    ("<div class=\"info-item\"><strong>Supplier:</strong> "
      ++ fStr purchase.supplier_name ++ "</div>")
  let price_section := build_section (optPy purchase.purchase_price)
    ("<div class=\"info-item\"><strong>Purchase Price:</strong> "
      ++ optOrEmpty purchase.currency ++ " " ++ fStr purchase.purchase_price ++ "</div>")
  let port_section := build_section (optPy purchase.port_of_loading)
    ("<div class=\"info-item\"><strong>Port of Loading:</strong> "
      ++ fStr purchase.port_of_loading ++ "</div>")
  let shipping_date_section := build_section (optPy purchase.expected_shipping_date)
    ("<div class=\"info-item\"><strong>Expected Shipping Date:</strong> "
      ++ fStr purchase.expected_shipping_date ++ "</div>")
  let notes_section := build_section (optPy purchase.notes)
    ("<div class=\"highlight\"><p class=\"info-label\">📌 Important Notes</p><p>"
      ++ fStr purchase.notes ++ "</p></div>")
  let contact_section := build_section (optPy purchase.contact_person)
    ("<div class=\"info-item\"><strong>Contact Person:</strong> "
      ++ fStr purchase.contact_person ++ "</div>")
  let html_body := render_template template_content
    [("customer_name", .str purchase.customer_name),
     ("status_message", .str status_message),
     ("new_status", .str purchase.new_status),
     ("car_info", .str car_info),
     ("chassis_number_section", .str chassis_section),
     ("purchase_order_section", .str po_section),
     ("lc_number_section", .str lc_section),
     ("supplier_section", .str supplier_section),
     ("price_section", .str price_section),
     ("port_loading_section", .str port_section),
     ("shipping_date_section", .str shipping_date_section),
     ("notes_section", .str notes_section),
     ("contact_section", .str contact_section)]
  let attempt : SendAttempt :=
    { to_email := purchase.to_email
      subject := "Purchase Update: " ++ purchase.new_status ++ " - " ++ car_info
      body := html_body }
  if mailOk then
    (.ok { status := "success"
           message := "Purchase status email sent to " ++ purchase.to_email
           details := .purchase car_info purchase.new_status purchase.purchase_order_id },
     [attempt])
  else
    (.error ⟨500, "Error: " ++ HTTPError.toStr ⟨500, "Failed to send email"⟩⟩, [attempt])

/-- `MailService.send_shipping_status_update`, translated from the source. -/
def send_shipping_status_update (template_content : String) (mailOk : Bool)
    (shipping : ShippingStatusEmail) :
    Except HTTPError EmailSuccess × List SendAttempt :=
  let car_info := shipping.car_make ++ " " ++ shipping.car_model
  let car_info := if optTruthy shipping.car_year
    then car_info ++ " (" ++ fStr shipping.car_year ++ ")"
    else car_info
  let status_message := if optTruthy shipping.old_status
    then "Your vehicle shipping status has been updated from <strong>"
      ++ fStr shipping.old_status ++ "</strong> to <strong>"
      ++ shipping.new_status ++ "</strong>."
    else "Your vehicle shipping status is now: <strong>" ++ shipping.new_status ++ "</strong>"
  let chassis_section := build_section (optPy shipping.chassis_number)
    ("<div class=\"info-item\"><strong>Chassis Number:</strong> "
      ++ fStr shipping.chassis_number ++ "</div>")
  let shipping_order_section := build_section (optPy shipping.shipping_order_id)
    ("<div class=\"info-item\"><strong>Shipping Order ID:</strong> "
      ++ fStr shipping.shipping_order_id ++ "</div>")
  let vessel_section := build_section (optPy shipping.vessel_name)
    ("<div class=\"info-item\"><strong>Vessel Name:</strong> "
      ++ fStr shipping.vessel_name ++ "</div>")
  let voyage_section := build_section (optPy shipping.voyage_number)
    ("<div class=\"info-item\"><strong>Voyage Number:</strong> "
      ++ fStr shipping.voyage_number ++ "</div>")
  let container_section := build_section (optPy shipping.container_number)
    ("<div class=\"info-item\"><strong>Container Number:</strong> "
      ++ fStr shipping.container_number ++ "</div>")
  let bl_section := build_section (optPy shipping.bill_of_lading)
    ("<div class=\"info-item\"><strong>Bill of Lading:</strong> "
      ++ fStr shipping.bill_of_lading ++ "</div>")
  let port_loading_section := build_section (optPy shipping.port_of_loading)
    ("<div class=\"info-item\"><strong>Port of Loading:</strong> "
      ++ fStr shipping.port_of_loading ++ "</div>")
  let port_discharge_section := build_section (optPy shipping.port_of_discharge)
    ("<div class=\"info-item\"><strong>Port of Discharge:</strong> "
      ++ fStr shipping.port_of_discharge ++ "</div>")
  let eta_section := build_section (optPy shipping.estimated_arrival_date)
    ("<div class=\"info-item\"><strong>Estimated Arrival:</strong> "
      ++ fStr shipping.estimated_arrival_date ++ "</div>")
  let ata_section := build_section (optPy shipping.actual_arrival_date)
    ("<div class=\"info-item\"><strong>Actual Arrival:</strong> "
      ++ fStr shipping.actual_arrival_date ++ "</div>")
  let delivery_section := build_section (optPy shipping.delivery_date)
    ("<div class=\"info-item\"><strong>Delivery Date:</strong> "
      ++ fStr shipping.delivery_date ++ "</div>")
  let tracking_section := build_section (optPy shipping.tracking_url)
    ("<div style=\"text-align: center;\"><a href=\"" ++ fStr shipping.tracking_url
      ++ "\" class=\"tracking-button\">📍 Track Your Shipment</a></div>")
  let notes_section := build_section (optPy shipping.notes)
    ("<div class=\"highlight\"><p class=\"info-label\">📌 Important Notes</p><p>"
      ++ fStr shipping.notes ++ "</p></div>")
  let contact_section := build_section (optPy shipping.contact_person)
    ("<div class=\"info-item\"><strong>Contact Person:</strong> "
      ++ fStr shipping.contact_person ++ "</div>")
  let html_body := render_template template_content
    [("customer_name", .str shipping.customer_name),
     ("status_message", .str status_message),
     ("new_status", .str shipping.new_status),
     ("car_info", .str car_info),
     ("chassis_number_section", .str chassis_section),
     ("shipping_order_section", .str shipping_order_section),
     ("vessel_section", .str vessel_section),
     ("voyage_section", .str voyage_section),
     ("container_section", .str container_section),
     ("bl_section", .str bl_section),
     ("port_loading_section", .str port_loading_section),
     ("port_discharge_section", .str port_discharge_section),
     ("eta_section", .str eta_section),
     ("ata_section", .str ata_section),
     ("delivery_date_section", .str delivery_section),
     ("tracking_section", .str tracking_section),
     ("notes_section", .str notes_section),
     ("contact_section", .str contact_section)]
  let attempt : SendAttempt :=
    { to_email := shipping.to_email
      subject := "Shipping Update: " ++ shipping.new_status ++ " - " ++ car_info
      body := html_body }
  if mailOk then
    (.ok { status := "success"
           message := "Shipping status email sent to " ++ shipping.to_email
           details := .shipping car_info shipping.new_status shipping.shipping_order_id
             shipping.tracking_url },
     [attempt])
  else
    (.error ⟨500, "Error: " ++ HTTPError.toStr ⟨500, "Failed to send email"⟩⟩, [attempt])

/-- Modelled from the spec: `MailService.send_mail`, the dispatch router the
orchestrator calls (`src/app.py`, line 87) but which is absent from `src/`.
§4.3: unknown type → `UnsupportedType` listing the known types; known type →
strict conversion of the payload into the expected shape (`InvalidPayload`
surfacing the conversion error message on failure); on success invoke the
handler and return its result unchanged, propagating handler-raised errors. -/
def send_mail (template_content : String) (mailOk : Bool)
    (notification_type : String) (payload : JsonObj) :
    Except HTTPError EmailSuccess × List SendAttempt :=
  if notification_type = "purchase_status" then
    match toPurchasingStatusEmail payload with
    | .error msg =>
        (.error ⟨400, "Invalid payload for purchase_status: " ++ msg⟩, [])
    | .ok purchase => send_purchase_status_update template_content mailOk purchase
  else if notification_type = "shipping_status" then
    match toShippingStatusEmail payload with
    | .error msg =>
        (.error ⟨400, "Invalid payload for shipping_status: " ++ msg⟩, [])
    | .ok shipping => send_shipping_status_update template_content mailOk shipping
  else
    (.error ⟨400, "Unsupported notification type: " ++ notification_type
        ++ ". Supported types: purchase_status, shipping_status"⟩, [])

/-! ## `POST /notification-service/notifications` (`src/app.py`) -/

/-- The response body of a successful `POST /notification-service/notifications`. -/
structure AcceptResponse where
  status : String
  message : String
  storage : StorageConfirmation
  email : Option EmailSuccess
  email_warning : Option String
  deriving Repr, DecidableEq

/-- The `accept_notification` route body, translated from the source: store
first (a storage failure propagates as the request's failure), then attempt
dispatch, catching `HTTPException` (warning from `e.detail`) and any other
exception (warning from `str(e)`) — in this embedding every dispatch failure
is an `HTTPError` value, so the warning is built from its detail.  The source
sets the warning only when `email_error` is truthy, i.e. a non-empty string. -/
def accept_notification (template_content : String) (mailOk : Bool)
    (dbFault : Option String) (now : String) (st : ServerState)
    (n : NotificationRequest) :
    Except HTTPError (AcceptResponse × ServerState × List SendAttempt) :=
  match store_notification n now dbFault st with
  | .error e => .error e
  | .ok (storage_result, st') =>
    let sendOut := send_mail template_content mailOk n.notification_type n.payload
    match sendOut.1 with
    | .ok email_result =>
        .ok ({ status := "success"
               message := "Notification accepted, stored, and email sent"
               storage := storage_result
               email := some email_result
               email_warning := none }, st', sendOut.2)
    | .error e =>
        .ok ({ status := "success"
               message := "Notification accepted and stored"
               storage := storage_result
               email := none
               email_warning :=
                 if e.detail = "" then none
                 else some ("Email not sent: " ++ e.detail) }, st', sendOut.2)

/-- Python `str.split()` with no argument: split on runs of spaces, dropping
empty pieces (on character lists, with an accumulator for the current piece). -/
def splitWsAux : List Char → List Char → List (List Char)
  | [], acc => if acc = [] then [] else [acc.reverse]
  | c :: cs, acc =>
    if c = ' ' then
      if acc = [] then splitWsAux cs [] else acc.reverse :: splitWsAux cs []
    else splitWsAux cs (c :: acc)

/-- Python `s.split()` (whitespace limited to the space character, the only
separator a `Bearer <token>` header contains). -/
def pySplit (s : String) : List String := (splitWsAux s.data []).map String.mk

/-- Python `str.lower()` on an ASCII character. -/
def asciiLower (c : Char) : Char :=
  if 'A' ≤ c ∧ c ≤ 'Z' then Char.ofNat (c.toNat + 32) else c

/-- Python `s.lower()` (ASCII). -/
def pyLower (s : String) : String := String.mk (s.data.map asciiLower)

/-- `AuthService.verify_token`, translated from the source: the header must be
`Bearer <token>`; the introspection call (an external HTTP GET, modelled by
its outcome: `connOk` connectivity, `introspectStatus` and the `active` field
of its JSON body) must return 200 with `active: true`. -/
def verify_token (authorization : Option String) (connOk : Bool)
    (introspectStatus : Nat) (active : Bool) : Except HTTPError Unit :=
  match authorization with
  | none => .error ⟨401, "Authorization header is missing"⟩
  | some auth =>
    let parts := pySplit auth
    if parts.length ≠ 2 ∨ pyLower (parts.headD "") ≠ "bearer" then
      .error ⟨401, "Invalid authorization header format. Expected: Bearer <token>"⟩
    else if ¬ connOk then
      .error ⟨503, "Failed to connect to introspection service"⟩
    else if introspectStatus ≠ 200 then
      .error ⟨401, "Token introspection failed"⟩
    else if ¬ active then
      .error ⟨401, "Token is not active or has expired"⟩
    else
      .ok ()

/-- The full `POST /notification-service/notifications` endpoint: the auth
dependency runs first, then the route body. -/
def api_accept_notification (authorization : Option String) (connOk : Bool)
    (introspectStatus : Nat) (active : Bool) (template_content : String)
    (mailOk : Bool) (dbFault : Option String) (now : String) (st : ServerState)
    (n : NotificationRequest) :
    Except HTTPError (AcceptResponse × ServerState × List SendAttempt) :=
  match verify_token authorization connOk introspectStatus active with
  | .error e => .error e
  | .ok _ => accept_notification template_content mailOk dbFault now st n

/-! ## Concrete example inputs -/

/-- A concrete stored row (notification type `"a"`), used to exercise the
filter semantics on concrete tables. -/
def c4row : NotificationRow :=
  { notification_id := "id-1", notification_type := "a", source := "svc",
    payload := [], priority := some "normal",
    timestamp := "2024-06-01T00:00:00+00:00", reference_id := none,
    metadata := none, stored_at := "2024-06-01T00:00:01+00:00" }

/-- A second concrete stored row (notification type `"b"`, later `stored_at`). -/
def c4row2 : NotificationRow :=
  { notification_id := "id-2", notification_type := "b", source := "svc",
    payload := [], priority := some "high",
    timestamp := "2024-06-01T00:00:02+00:00", reference_id := none,
    metadata := none, stored_at := "2024-06-01T00:00:03+00:00" }

/-! # Theorems

Helper lemmas first, then one theorem per specification claim. -/

/-! ## Order, identifier and monad helper lemmas -/

theorem charListLe_total : ∀ a b : List Char, charListLe a b ∨ charListLe b a := by
  intro a
  induction a with
  | nil => intro b; left; simp [charListLe]
  | cons x xs ih =>
    intro b
    cases b with
    | nil => right; simp [charListLe]
    | cons y ys =>
      by_cases hxy : x = y
      · subst hxy
        rcases ih ys with h | h
        · left; simpa [charListLe] using h
        · right; simpa [charListLe] using h
      · rcases lt_trichotomy x y with h | h | h
        · left; simp [charListLe, hxy, h]
        · exact absurd h hxy
        · right; simp [charListLe, Ne.symm hxy, h]

theorem charListLe_trans :
    ∀ a b c : List Char, charListLe a b → charListLe b c → charListLe a c := by
  intro a
  induction a with
  | nil => intro b c _ _; simp [charListLe]
  | cons x xs ih =>
    intro b c hab hbc
    cases b with
    | nil => simp [charListLe] at hab
    | cons y ys =>
      cases c with
      | nil => simp [charListLe] at hbc
      | cons z zs =>
        by_cases hxy : x = y <;> by_cases hyz : y = z
        · subst hxy; subst hyz
          simp only [charListLe, if_pos rfl] at hab hbc ⊢
          exact ih ys zs hab hbc
        · subst hxy
          simp only [charListLe, if_pos rfl, if_neg hyz] at hbc ⊢
          exact hbc
        · subst hyz
          simp only [charListLe, if_pos rfl, if_neg hxy] at hab ⊢
          exact hab
        · simp only [charListLe, if_neg hxy, if_neg hyz, decide_eq_true_eq] at hab hbc
          have hxz : x < z := lt_trans hab hbc
          have hxz' : x ≠ z := ne_of_lt hxz
          simp [charListLe, if_neg hxz', hxz]

theorem strLe_total (a b : String) : strLe a b ∨ strLe b a :=
  charListLe_total a.data b.data

theorem strLe_trans {a b c : String} (hab : strLe a b) (hbc : strLe b c) : strLe a c :=
  charListLe_trans a.data b.data c.data hab hbc

instance : IsTotal NotificationRow storedAtGe :=
  ⟨fun a b => strLe_total b.stored_at a.stored_at⟩

instance : IsTrans NotificationRow storedAtGe :=
  ⟨fun _ _ _ hab hbc => strLe_trans hbc hab⟩

theorem uuidOf_injective : Function.Injective uuidOf := by
  intro a b h
  have hlen : (List.replicate (a + 1) 'u').length = (List.replicate (b + 1) 'u').length := by
    have hd := congrArg String.data h
    simp only [uuidOf] at hd
    rw [hd]
  simpa using hlen

theorem except_bind_ok {ε α β : Type} {a : Except ε α} {f : α → Except ε β} {b : β}
    (h : (a >>= f) = .ok b) : ∃ w, a = .ok w ∧ f w = .ok b := by
  cases a with
  | ok w => exact ⟨w, rfl, h⟩
  | error e => simp [Bind.bind, Except.bind] at h

theorem getReqStr_ok {p : JsonObj} {k s : String} (h : getReqStr p k = .ok s) :
    p.lookup k = some (.str s) := by
  unfold getReqStr at h
  cases hl : p.lookup k with
  | none => rw [hl] at h; cases h
  | some v =>
    rw [hl] at h
    cases v with
    | str t => cases h; rfl
    | num n => cases h
    | bool b => cases h
    | null => cases h

/-- If the strict purchase-shape conversion succeeds, every required field was
present as a string in the payload. -/
theorem toPurchasingStatusEmail_ok_required {p : JsonObj} {e : PurchasingStatusEmail}
    (h : toPurchasingStatusEmail p = .ok e) :
    (∃ s, p.lookup "to_email" = some (.str s)) ∧
    (∃ s, p.lookup "customer_name" = some (.str s)) ∧
    (∃ s, p.lookup "car_make" = some (.str s)) ∧
    (∃ s, p.lookup "car_model" = some (.str s)) ∧
    (∃ s, p.lookup "new_status" = some (.str s)) := by
  unfold toPurchasingStatusEmail at h
  cases hf : p.find? (fun kv => !(purchaseFields.contains kv.1)) with
  | some kv => rw [hf] at h; cases h
  | none =>
    rw [hf] at h
    obtain ⟨w1, h1, h⟩ := except_bind_ok h
    obtain ⟨w2, h2, h⟩ := except_bind_ok h
    obtain ⟨w3, h3, h⟩ := except_bind_ok h
    obtain ⟨w4, h4, h⟩ := except_bind_ok h
    obtain ⟨w5, h5, _⟩ := except_bind_ok h
    exact ⟨⟨w1, getReqStr_ok h1⟩, ⟨w2, getReqStr_ok h2⟩, ⟨w3, getReqStr_ok h3⟩,
      ⟨w4, getReqStr_ok h4⟩, ⟨w5, getReqStr_ok h5⟩⟩

/-! ## Claim theorems -/

/-- C6: `render_template` processes each binding in turn: a binding `(k, v)`
replaces every `{{k}}` placeholder by the string form of `v` when `v` is
truthy and by the empty string when `v` is falsy (`None`, `""`, `0`, `False`),
while a placeholder whose key has no binding is left untouched without error;
in particular `render("Hello {{name}}!", {name: "Bob"}) = "Hello Bob!"` and
`render("{{x}}", {}) = "{{x}}"`. -/
theorem C6_render_template_substitution :
    (∀ t k v, render_template t [(k, v)] =
      strReplace t ("\x7b\x7b" ++ k ++ "\x7d\x7d") (if v.truthy then v.toStr else "")) ∧
    (∀ t, render_template t [] = t) ∧
    render_template "Hello \x7b\x7bname\x7d\x7d!" [("name", .str "Bob")] = "Hello Bob!" ∧
    render_template "a \x7b\x7bk\x7d\x7d b" [("k", .str "")] = "a  b" ∧
    render_template "a \x7b\x7bk\x7d\x7d b" [("k", .none)] = "a  b" ∧
    render_template "a \x7b\x7bk\x7d\x7d b" [("k", .int 0)] = "a  b" ∧
    render_template "a \x7b\x7bk\x7d\x7d b" [("k", .bool false)] = "a  b" ∧
    render_template "a \x7b\x7bk\x7d\x7d b" [("k", .int 7)] = "a 7 b" ∧
    render_template "\x7b\x7bx\x7d\x7d" [] = "\x7b\x7bx\x7d\x7d" ∧
    render_template "\x7b\x7bx\x7d\x7d" [("y", .str "Bob")] = "\x7b\x7bx\x7d\x7d" :=
  ⟨fun _ _ _ => rfl, fun _ => rfl, by decide, by decide, by decide, by decide,
   by decide, by decide, by decide, by decide⟩

/-- C10 (implicit): the substitutions of `render_template` are sequential, one
binding at a time over the already-substituted text — each step rewrites the
accumulated text and hands it to the remaining bindings — so placeholder text
introduced by an earlier binding's value is itself replaced by a later binding:
rendering `"{{a}}"` with bindings `a = "{{b}}"`, `b = "X"` (in that order)
yields `"X"`, not `"{{b}}"`. -/
theorem C10_sequential_substitution :
    (∀ t k v rest, render_template t ((k, v) :: rest) =
      render_template
        (strReplace t ("\x7b\x7b" ++ k ++ "\x7d\x7d") (if v.truthy then v.toStr else ""))
        rest) ∧
    render_template "\x7b\x7ba\x7d\x7d" [("a", .str "\x7b\x7bb\x7d\x7d"), ("b", .str "X")]
      = "X" ∧
    render_template "\x7b\x7ba\x7d\x7d" [("a", .str "\x7b\x7bb\x7d\x7d"), ("b", .str "X")]
      ≠ "\x7b\x7bb\x7d\x7d" :=
  ⟨fun _ _ _ _ => rfl, by decide, by decide⟩

/-- C8: every purchase status email dispatch that reaches the send step invokes
the mail capability exactly once; if the capability reports success the handler
returns a success payload containing the car label, the new status and the
purchase order id, and if it reports failure the handler signals the
`MailSendFailed` dispatch failure (the 500 `"Failed to send email"` error,
re-wrapped by the handler's catch-all into detail
`"Error: 500: Failed to send email"`) — not any other error kind and not a
success result. -/
theorem C8_purchase_handler_send_outcome (template_content : String)
    (purchase : PurchasingStatusEmail) (mailOk : Bool) :
    (send_purchase_status_update template_content mailOk purchase).2.length = 1 ∧
    (mailOk = true →
      (send_purchase_status_update template_content mailOk purchase).1 =
        .ok { status := "success"
              message := "Purchase status email sent to " ++ purchase.to_email
              details := .purchase
                (if optTruthy purchase.car_year
                 then purchase.car_make ++ " " ++ purchase.car_model ++ " ("
                      ++ fStr purchase.car_year ++ ")"
                 else purchase.car_make ++ " " ++ purchase.car_model)
                purchase.new_status purchase.purchase_order_id }) ∧
    (mailOk = false →
      (send_purchase_status_update template_content mailOk purchase).1 =
        .error ⟨500, "Error: 500: Failed to send email"⟩) := by
  refine ⟨?_, ?_, ?_⟩
  · cases mailOk <;> simp [send_purchase_status_update]
  · intro h; subst h; simp [send_purchase_status_update]
  · intro h; subst h
    simp only [send_purchase_status_update, Bool.false_eq_true, if_false]
    decide

/-- Witness for C8 at a concrete purchase shape and both transport outcomes. -/
theorem C8_purchase_handler_send_outcome_witness :
    (send_purchase_status_update "T" true
      { to_email := "a@b.com", customer_name := "A", car_make := "Toyota",
        car_model := "Corolla", new_status := "Shipped" }).1 =
      .ok { status := "success"
            message := "Purchase status email sent to a@b.com"
            details := .purchase "Toyota Corolla" "Shipped" none } ∧
    (send_purchase_status_update "T" false
      { to_email := "a@b.com", customer_name := "A", car_make := "Toyota",
        car_model := "Corolla", new_status := "Shipped" }).1 =
      .error ⟨500, "Error: 500: Failed to send email"⟩ :=
  ⟨(C8_purchase_handler_send_outcome "T"
      { to_email := "a@b.com", customer_name := "A", car_make := "Toyota",
        car_model := "Corolla", new_status := "Shipped" } true).2.1 rfl,
   (C8_purchase_handler_send_outcome "T"
      { to_email := "a@b.com", customer_name := "A", car_make := "Toyota",
        car_model := "Corolla", new_status := "Shipped" } false).2.2 rfl⟩

/-- C7: a `purchase_status` dispatch payload missing one of the required
fields — recipient email, customer name, make/model, or `new_status` — fails
the strict conversion step of the router, signalling `InvalidPayload` (the 400
`"Invalid payload for purchase_status: …"` error) before the handler runs, and
the mail capability is never invoked (no send attempt is recorded). -/
theorem C7_missing_required_field_invalid_payload (template_content : String)
    (mailOk : Bool) (payload : JsonObj)
    (h : payload.lookup "to_email" = none ∨ payload.lookup "customer_name" = none ∨
         payload.lookup "car_make" = none ∨ payload.lookup "car_model" = none ∨
         payload.lookup "new_status" = none) :
    (send_mail template_content mailOk "purchase_status" payload).2 = [] ∧
    ∃ msg, (send_mail template_content mailOk "purchase_status" payload).1 =
      .error ⟨400, "Invalid payload for purchase_status: " ++ msg⟩ := by
  cases hc : toPurchasingStatusEmail payload with
  | ok e =>
    exfalso
    obtain ⟨⟨s1, hs1⟩, ⟨s2, hs2⟩, ⟨s3, hs3⟩, ⟨s4, hs4⟩, ⟨s5, hs5⟩⟩ :=
      toPurchasingStatusEmail_ok_required hc
    rcases h with h | h | h | h | h <;> simp_all
  | error msg =>
    constructor
    · simp [send_mail, hc]
    · exact ⟨msg, by simp [send_mail, hc]⟩

/-- Witness for C7: the C2 end-to-end payload with `new_status` removed. -/
theorem C7_missing_required_field_invalid_payload_witness :
    (send_mail "T" true "purchase_status"
      [("to_email", .str "a@b.com"), ("customer_name", .str "A"),
       ("car_make", .str "Toyota"), ("car_model", .str "Corolla")]).2 = [] ∧
    ∃ msg, (send_mail "T" true "purchase_status"
      [("to_email", .str "a@b.com"), ("customer_name", .str "A"),
       ("car_make", .str "Toyota"), ("car_model", .str "Corolla")]).1 =
      .error ⟨400, "Invalid payload for purchase_status: " ++ msg⟩ :=
  C7_missing_required_field_invalid_payload "T" true
    [("to_email", .str "a@b.com"), ("customer_name", .str "A"),
     ("car_make", .str "Toyota"), ("car_model", .str "Corolla")]
    (by decide)

theorem append_ne_empty_left {a : String} (b : String) (ha : a ≠ "") : a ++ b ≠ "" := by
  intro hc
  apply ha
  have hd := congrArg String.data hc
  simp only [String.data_append] at hd
  have hnil := (List.append_eq_nil.mp (by simpa using hd)).1
  cases a
  simp_all

/-- Every error the dispatch router signals carries a non-empty detail string
(so the orchestrator's truthiness check on `email_error` always passes). -/
theorem send_mail_error_detail_ne_empty {t : String} {mo : Bool} {ty : String}
    {p : JsonObj} {e : HTTPError}
    (h : (send_mail t mo ty p).1 = .error e) : e.detail ≠ "" := by
  unfold send_mail at h
  by_cases h1 : ty = "purchase_status"
  · rw [if_pos h1] at h
    cases hc : toPurchasingStatusEmail p with
    | error msg =>
      rw [hc] at h
      simp only at h
      cases h
      exact append_ne_empty_left msg (by decide)
    | ok purchase =>
      rw [hc] at h
      cases mo with
      | true => simp [send_purchase_status_update] at h
      | false =>
        simp only [send_purchase_status_update, Bool.false_eq_true, if_false] at h
        cases h
        decide
  · rw [if_neg h1] at h
    by_cases h2 : ty = "shipping_status"
    · rw [if_pos h2] at h
      cases hc : toShippingStatusEmail p with
      | error msg =>
        rw [hc] at h
        simp only at h
        cases h
        exact append_ne_empty_left msg (by decide)
      | ok shipping =>
        rw [hc] at h
        cases mo with
        | true => simp [send_shipping_status_update] at h
        | false =>
          simp only [send_shipping_status_update, Bool.false_eq_true, if_false] at h
          cases h
          decide
    · rw [if_neg h2] at h
      simp only at h
      cases h
      exact append_ne_empty_left _ (append_ne_empty_left _ (by decide))

/-- C1: when storage succeeds, `accept_notification` returns a success response
reporting the storage result regardless of the dispatch outcome — every error
the dispatch phase signals (unsupported type, invalid payload, send failure,
or any other `HTTPError`) is caught and converted into an `email_warning`
string `"Email not sent: <detail>"`, and no dispatch-phase error propagates
out of the orchestrator; in particular, accepting a notification of the
unknown type `"unknown_x"` stores it and returns a response carrying an
`email_warning`, raising nothing. -/
theorem C1_dispatch_failures_are_soft :
    (∀ (template_content : String) (mailOk : Bool) (now : String) (st : ServerState)
       (n : NotificationRequest) (e : HTTPError),
      (send_mail template_content mailOk n.notification_type n.payload).1 = .error e →
      ∃ st', accept_notification template_content mailOk none now st n =
        .ok ({ status := "success"
               message := "Notification accepted and stored"
               storage := { notification_id := uuidOf st.counter
                            notification_type := n.notification_type
                            source := n.source
                            stored_at := now }
               email := none
               email_warning := some ("Email not sent: " ++ e.detail) },
             st',
             (send_mail template_content mailOk n.notification_type n.payload).2)) ∧
    (∀ (template_content : String) (mailOk : Bool) (now : String) (st : ServerState),
      ∃ st', accept_notification template_content mailOk none now st
          { notification_type := "unknown_x", source := "svc", payload := [] } =
        .ok ({ status := "success"
               message := "Notification accepted and stored"
               storage := { notification_id := uuidOf st.counter
                            notification_type := "unknown_x"
                            source := "svc"
                            stored_at := now }
               email := none
               email_warning := some ("Email not sent: Unsupported notification type: "
                 ++ "unknown_x. Supported types: purchase_status, shipping_status") },
             st', [])) ∧
    (∀ (template_content : String) (mailOk : Bool) (now : String) (st : ServerState)
       (n : NotificationRequest) (es : EmailSuccess),
      (send_mail template_content mailOk n.notification_type n.payload).1 = .ok es →
      ∃ st', accept_notification template_content mailOk none now st n =
        .ok ({ status := "success"
               message := "Notification accepted, stored, and email sent"
               storage := { notification_id := uuidOf st.counter
                            notification_type := n.notification_type
                            source := n.source
                            stored_at := now }
               email := some es
               email_warning := none },
             st',
             (send_mail template_content mailOk n.notification_type n.payload).2)) := by
  refine ⟨?_, ?_, ?_⟩
  · intro t mo now st n e h
    have hne := send_mail_error_detail_ne_empty h
    refine ⟨((store_notification n now none st).toOption.map Prod.snd).getD st, ?_⟩
    simp only [accept_notification, store_notification]
    rw [h]
    simp [hne]
    rfl
  · intro t mo now st
    exact ⟨_, rfl⟩
  · intro t mo now st n es h
    refine ⟨((store_notification n now none st).toOption.map Prod.snd).getD st, ?_⟩
    simp only [accept_notification, store_notification]
    rw [h]
    rfl

/-- Witness for C1 at a concrete failing dispatch (unknown type, empty store). -/
theorem C1_dispatch_failures_are_soft_witness :
    ∃ st', accept_notification "T" true none "2024-06-01T00:00:00+00:00" initialState
        { notification_type := "order_update", source := "svc",
          payload := [("order_id", .str "ORD-1")] } =
      .ok ({ status := "success"
             message := "Notification accepted and stored"
             storage := { notification_id := uuidOf 0
                          notification_type := "order_update"
                          source := "svc"
                          stored_at := "2024-06-01T00:00:00+00:00" }
             email := none
             email_warning := some ("Email not sent: "
               ++ "Unsupported notification type: order_update. "
               ++ "Supported types: purchase_status, shipping_status") },
           st',
           (send_mail "T" true "order_update" [("order_id", .str "ORD-1")]).2) :=
  C1_dispatch_failures_are_soft.1 "T" true "2024-06-01T00:00:00+00:00" initialState
    { notification_type := "order_update", source := "svc",
      payload := [("order_id", .str "ORD-1")] }
    ⟨400, "Unsupported notification type: order_update. "
      ++ "Supported types: purchase_status, shipping_status"⟩
    (by decide)

/-- C2: posting the purchase-status notification with payload
`{to_email: "a@b.com", customer_name: "A", car_make: "Toyota",
car_model: "Corolla", new_status: "LC Opened"}` with a valid token (and a
healthy store and transport) yields a response reporting storage success and,
merged under `details.email`, the handler's success payload referencing the
car label `"Toyota Corolla"`: the dispatch path converts the payload into the
handler's shape, invokes the handler, and returns its result unchanged. -/
theorem C2_purchase_end_to_end (authorization : Option String) (connOk : Bool)
    (introspectStatus : Nat) (active : Bool) (template_content : String)
    (now : String) (st : ServerState)
    (hauth : verify_token authorization connOk introspectStatus active = .ok ()) :
    ∃ st' attempts,
      api_accept_notification authorization connOk introspectStatus active
        template_content true none now st
        { notification_type := "purchase_status", source := "svc",
          payload := [("to_email", .str "a@b.com"), ("customer_name", .str "A"),
                      ("car_make", .str "Toyota"), ("car_model", .str "Corolla"),
                      ("new_status", .str "LC Opened")] } =
      .ok ({ status := "success"
             message := "Notification accepted, stored, and email sent"
             storage := { notification_id := uuidOf st.counter
                          notification_type := "purchase_status"
                          source := "svc"
                          stored_at := now }
             email := some { status := "success"
                             message := "Purchase status email sent to a@b.com"
                             details := .purchase "Toyota Corolla" "LC Opened" none }
             email_warning := none },
           st', attempts) := by
  simp only [api_accept_notification, hauth]
  exact ⟨_, _, rfl⟩

/-- Witness for C2: a concrete valid bearer token, empty store, fixed clock. -/
theorem C2_purchase_end_to_end_witness :
    ∃ st' attempts,
      api_accept_notification (some "Bearer tok") true 200 true
        "Purchase \x7b\x7bcar_info\x7d\x7d" true none "2024-06-01T00:00:00+00:00"
        initialState
        { notification_type := "purchase_status", source := "svc",
          payload := [("to_email", .str "a@b.com"), ("customer_name", .str "A"),
                      ("car_make", .str "Toyota"), ("car_model", .str "Corolla"),
                      ("new_status", .str "LC Opened")] } =
      .ok ({ status := "success"
             message := "Notification accepted, stored, and email sent"
             storage := { notification_id := uuidOf 0
                          notification_type := "purchase_status"
                          source := "svc"
                          stored_at := "2024-06-01T00:00:00+00:00" }
             email := some { status := "success"
                             message := "Purchase status email sent to a@b.com"
                             details := .purchase "Toyota Corolla" "LC Opened" none }
             email_warning := none },
           st', attempts) :=
  C2_purchase_end_to_end (some "Bearer tok") true 200 true
    "Purchase \x7b\x7bcar_info\x7d\x7d" "2024-06-01T00:00:00+00:00" initialState
    (by decide)

/-- C3 counterexample: the claim says `timestamp` is filled with the server
time *exactly when the caller supplied none*, and that payload *and metadata*
are persisted as structured JSON.  But `store_notification` tests Python
truthiness (`if not timestamp`, `if notification_data.get("metadata")`): a
caller-supplied *empty-string* timestamp (supplied, but falsy) is overwritten
with the server time, and a caller-supplied *empty* metadata mapping is
persisted as NULL rather than as the supplied empty JSON object. -/
theorem C3_store_notification_counterexample :
    (store_notification
        { notification_type := "order_update", source := "svc",
          payload := [("k", .str "v")], priority := some "normal",
          timestamp := some "", reference_id := none, metadata := some [] }
        "2024-06-01T00:00:00+00:00" none initialState).toOption.map
      (fun r => r.2.table.map (fun row => (row.timestamp, row.metadata))) =
      some [("2024-06-01T00:00:00+00:00", none)] ∧
    some "" ≠ (none : Option String) ∧
    "2024-06-01T00:00:00+00:00" ≠ "" ∧
    (none : Option JsonObj) ≠ some [] := by
  refine ⟨by decide, by decide, by decide, by decide⟩

/-- C3 (amended): `store_notification` draws a fresh identifier (never
colliding with any identifier a previous draw produced), fills `timestamp`
with the server UTC time exactly when the caller supplied none *or a falsy
(empty-string) value*, sets `stored_at` to the server time at persistence,
appends one row persisting all fields — with an absent or empty (falsy)
metadata mapping stored as NULL — returns exactly the confirmation
`{notification_id, notification_type, source, stored_at}`, and fails with the
500 storage error if and only if the underlying persistence operation
faults. -/
theorem C3_store_notification_contract (n : NotificationRequest) (now : String)
    (dbFault : Option String) (st : ServerState) :
    ((store_notification n now dbFault st).isOk ↔ dbFault = none) ∧
    (∀ msg, dbFault = some msg →
      store_notification n now dbFault st =
        .error ⟨500, "Error storing notification: " ++ msg⟩) ∧
    (dbFault = none →
      ∃ row, store_notification n now dbFault st =
          .ok ({ notification_id := uuidOf st.counter
                 notification_type := n.notification_type
                 source := n.source
                 stored_at := now },
               { counter := st.counter + 1, table := st.table ++ [row] }) ∧
        row.notification_id = uuidOf st.counter ∧
        row.notification_type = n.notification_type ∧
        row.source = n.source ∧
        row.payload = n.payload ∧
        row.priority = n.priority ∧
        row.reference_id = n.reference_id ∧
        row.stored_at = now ∧
        ((n.timestamp = none ∨ n.timestamp = some "") → row.timestamp = now) ∧
        (∀ ts, n.timestamp = some ts → ts ≠ "" → row.timestamp = ts) ∧
        ((n.metadata = none ∨ n.metadata = some []) → row.metadata = none) ∧
        (∀ m, n.metadata = some m → m ≠ [] → row.metadata = some m) ∧
        ((∀ r ∈ st.table, ∃ j, j < st.counter ∧ r.notification_id = uuidOf j) →
          ∀ r ∈ st.table, r.notification_id ≠ row.notification_id)) := by
  refine ⟨?_, ?_, ?_⟩
  · cases dbFault <;> simp [store_notification, Except.isOk, Except.toBool]
  · intro msg h; subst h; rfl
  · intro h
    subst h
    refine ⟨_, rfl, rfl, rfl, rfl, rfl, rfl, rfl, rfl, ?_, ?_, ?_, ?_, ?_⟩
    · intro hts
      rcases hts with hts | hts <;> simp [hts]
    · intro ts hts hne
      rw [hts]
      simp [hne]
    · intro hm
      rcases hm with hm | hm <;> rw [hm]
      rfl
    · intro m hm hne
      rw [hm]
      simp [hne]
    · intro hall r hr heq
      obtain ⟨j, hj, hid⟩ := hall r hr
      have : uuidOf j = uuidOf st.counter := by rw [← hid]; exact heq
      exact absurd (uuidOf_injective this) (Nat.ne_of_lt hj)

/-- Witness for C3 (amended) at a concrete request, both with a healthy store
and with a faulting one. -/
theorem C3_store_notification_contract_witness :
    store_notification
        { notification_type := "order_update", source := "svc", payload := [] }
        "2024-06-01T00:00:00+00:00" (some "connection refused") initialState =
      .error ⟨500, "Error storing notification: connection refused"⟩ ∧
    (store_notification
        { notification_type := "order_update", source := "svc", payload := [] }
        "2024-06-01T00:00:00+00:00" none initialState).isOk :=
  ⟨(C3_store_notification_contract
      { notification_type := "order_update", source := "svc", payload := [] }
      "2024-06-01T00:00:00+00:00" (some "connection refused") initialState).2.1
      "connection refused" rfl,
   (C3_store_notification_contract
      { notification_type := "order_update", source := "svc", payload := [] }
      "2024-06-01T00:00:00+00:00" none initialState).1.mpr rfl⟩

/-- Each healthy insertion appends one row whose `stored_at` is exactly the
clock reading of that insertion. -/
theorem storeSeq_map_stored_at (ps : List (NotificationRequest × String))
    (st : ServerState) :
    (storeSeq ps st).table.map (fun r => r.stored_at) =
      st.table.map (fun r => r.stored_at) ++ ps.map (fun p => p.2) := by
  induction ps generalizing st with
  | nil => simp [storeSeq]
  | cons p ps ih =>
    have hstep : storeSeq (p :: ps) st =
        storeSeq ps
          ((match store_notification p.1 p.2 none st with
            | .ok r => r.2
            | .error _ => st)) := rfl
    rw [hstep, ih]
    simp [store_notification]

/-- C9 counterexample: two insertions performed while the server clock reads
the same instant (possible: `datetime.now` has finite resolution and the code
adds no uniqueness mechanism) receive *equal* `stored_at` values — the later
insertion does not get a strictly greater `stored_at`, and two stored
notifications share one. -/
theorem C9_stored_at_counterexample :
    ((storeSeq
        [({ notification_type := "order_update", source := "svc", payload := [] },
          "2024-06-01T00:00:00.000001+00:00"),
         ({ notification_type := "order_update", source := "svc", payload := [] },
          "2024-06-01T00:00:00.000001+00:00")]
        initialState).table.map (fun r => r.stored_at)) =
      ["2024-06-01T00:00:00.000001+00:00", "2024-06-01T00:00:00.000001+00:00"] ∧
    ¬ List.Pairwise (fun a b : String => strLt a b = true)
      ((storeSeq
        [({ notification_type := "order_update", source := "svc", payload := [] },
          "2024-06-01T00:00:00.000001+00:00"),
         ({ notification_type := "order_update", source := "svc", payload := [] },
          "2024-06-01T00:00:00.000001+00:00")]
        initialState).table.map (fun r => r.stored_at)) ∧
    ¬ List.Pairwise (fun a b : String => a ≠ b)
      ((storeSeq
        [({ notification_type := "order_update", source := "svc", payload := [] },
          "2024-06-01T00:00:00.000001+00:00"),
         ({ notification_type := "order_update", source := "svc", payload := [] },
          "2024-06-01T00:00:00.000001+00:00")]
        initialState).table.map (fun r => r.stored_at)) := by
  refine ⟨by decide, by decide, by decide⟩

/-- C9 (amended): the storage layer assigns each inserted notification the
server clock reading current at its insertion as `stored_at`, and adds no
tie-breaking or uniqueness of its own — so across an insertion sequence the
`stored_at` values are strictly increasing exactly when the successive clock
readings are; with equal clock readings (same-microsecond inserts or a stalled
clock) distinct stored notifications share a `stored_at`. -/
theorem C9_stored_at_follows_clock (ps : List (NotificationRequest × String))
    (st : ServerState) :
    ((storeSeq ps st).table.map (fun r => r.stored_at) =
      st.table.map (fun r => r.stored_at) ++ ps.map (fun p => p.2)) ∧
    (st.table = [] →
      List.Pairwise (fun a b : String => strLt a b = true) (ps.map (fun p => p.2)) →
      List.Pairwise (fun a b : String => strLt a b = true)
        ((storeSeq ps st).table.map (fun r => r.stored_at))) := by
  refine ⟨storeSeq_map_stored_at ps st, ?_⟩
  intro hempty hsorted
  rw [storeSeq_map_stored_at ps st, hempty]
  simpa using hsorted

/-- Witness for C9 (amended): two insertions under a strictly increasing clock
give strictly increasing `stored_at` values. -/
theorem C9_stored_at_follows_clock_witness :
    List.Pairwise (fun a b : String => strLt a b = true)
      ((storeSeq
        [({ notification_type := "order_update", source := "svc", payload := [] },
          "2024-06-01T00:00:00.000001+00:00"),
         ({ notification_type := "order_update", source := "svc", payload := [] },
          "2024-06-01T00:00:00.000002+00:00")]
        initialState).table.map (fun r => r.stored_at)) :=
  (C9_stored_at_follows_clock
    [({ notification_type := "order_update", source := "svc", payload := [] },
      "2024-06-01T00:00:00.000001+00:00"),
     ({ notification_type := "order_update", source := "svc", payload := [] },
      "2024-06-01T00:00:00.000002+00:00")]
    initialState).2 rfl (by decide)

/-- For filter arguments that are supplied as non-empty strings (the truthy
case in which the source actually appends a `WHERE` clause), the built SQL
predicate agrees with the spec-side conjunctive matching predicate. -/
theorem listWhere_iff_matchesFilters (tf sf pf : Option String) (r : NotificationRow)
    (htf : ∀ f, tf = some f → f ≠ "") (hsf : ∀ f, sf = some f → f ≠ "")
    (hpf : ∀ f, pf = some f → f ≠ "") :
    listWhere tf sf pf r = true ↔ matchesFilters tf sf pf r := by
  rcases tf with _ | f <;> rcases sf with _ | g <;> rcases pf with _ | q <;>
    simp_all [listWhere, matchesFilters, and_assoc]

/-- C4 counterexample: the claim quantifies over *every* combination of the
optional filters, but a supplied empty-string filter is falsy in Python, so
`get_notifications` silently drops its `WHERE` clause: filtering a table
containing a row of type `"a"` by `notification_type = ""` returns that row,
which does not match the supplied filter (and likewise `get_notification_count`
counts it). -/
theorem C4_filters_counterexample :
    get_notifications (some "") none none 10 0 [c4row] = [c4row] ∧
    get_notification_count (some "") none none [c4row] = 1 ∧
    ¬ matchesFilters (some "") none none c4row := by
  refine ⟨by decide, by decide, ?_⟩
  intro hm
  exact absurd (hm.1 "" rfl) (by decide)

/-- C4 (amended): for every combination of the optional filters in which each
*supplied* filter is a non-empty string (an empty-string filter is falsy and
treated as absent), `get_notifications` returns only stored events matching
all supplied filters conjunctively, ordered by `stored_at` descending, as the
`offset`/`limit` page of the ordered filtered sequence, and
`get_notification_count` counts exactly the events matching the same
conjunctive filters. -/
theorem C4_list_count_filter_semantics (tf sf pf : Option String)
    (limit offset : Nat) (table : List NotificationRow)
    (htf : ∀ f, tf = some f → f ≠ "") (hsf : ∀ f, sf = some f → f ≠ "")
    (hpf : ∀ f, pf = some f → f ≠ "") :
    (∀ r ∈ get_notifications tf sf pf limit offset table,
        r ∈ table ∧ matchesFilters tf sf pf r) ∧
    List.Pairwise storedAtGe (get_notifications tf sf pf limit offset table) ∧
    (get_notifications tf sf pf limit offset table).length ≤ limit ∧
    get_notifications tf sf pf limit offset table =
      ((orderByStoredAtDesc (table.filter (listWhere tf sf pf))).drop offset).take
        limit ∧
    get_notification_count tf sf pf table =
      (table.filter (listWhere tf sf pf)).length ∧
    (∀ r, listWhere tf sf pf r = true ↔ matchesFilters tf sf pf r) := by
  refine ⟨?_, ?_, ?_, rfl, rfl, fun r => listWhere_iff_matchesFilters tf sf pf r htf hsf hpf⟩
  · intro r hr
    have h1 : r ∈ (orderByStoredAtDesc (table.filter (listWhere tf sf pf))).drop offset :=
      List.mem_of_mem_take hr
    have h2 : r ∈ orderByStoredAtDesc (table.filter (listWhere tf sf pf)) :=
      List.mem_of_mem_drop h1
    have h3 : r ∈ table.filter (listWhere tf sf pf) := by
      simp only [orderByStoredAtDesc] at h2
      exact (List.mem_insertionSort storedAtGe).mp h2
    obtain ⟨hmem, hw⟩ := List.mem_filter.mp h3
    exact ⟨hmem, (listWhere_iff_matchesFilters tf sf pf r htf hsf hpf).mp hw⟩
  · have hs : List.Pairwise storedAtGe
        (orderByStoredAtDesc (table.filter (listWhere tf sf pf))) :=
      List.sorted_insertionSort storedAtGe (table.filter (listWhere tf sf pf))
    have hsub : List.Sublist (get_notifications tf sf pf limit offset table)
        (orderByStoredAtDesc (table.filter (listWhere tf sf pf))) :=
      (List.take_sublist _ _).trans (List.drop_sublist _ _)
    exact List.Pairwise.sublist hsub hs
  · show (List.take limit _).length ≤ limit
    simp [List.length_take]

/-- Witness for C4 (amended) on a concrete two-row table with a supplied
non-empty type filter. -/
theorem C4_list_count_filter_semantics_witness :
    List.Pairwise storedAtGe (get_notifications (some "a") none none 10 0 [c4row, c4row2]) ∧
    get_notification_count (some "a") none none [c4row, c4row2] =
      ([c4row, c4row2].filter (listWhere (some "a") none none)).length :=
  ⟨(C4_list_count_filter_semantics (some "a") none none 10 0 [c4row, c4row2]
      (fun f hf => by simp at hf; subst hf; decide)
      (fun f hf => by cases hf) (fun f hf => by cases hf)).2.1,
   (C4_list_count_filter_semantics (some "a") none none 10 0 [c4row, c4row2]
      (fun f hf => by simp at hf; subst hf; decide)
      (fun f hf => by cases hf) (fun f hf => by cases hf)).2.2.2.2.1⟩

/-- `(T + ps - 1) / ps` is the exact natural ceiling of `T / ps`: for positive
`T` it is the unique `k` with `ps * (k - 1) < T ≤ ps * k`. -/
theorem ceil_div_spec (T ps : Nat) (hps : 1 ≤ ps) (hT : 0 < T) :
    ps * ((T + ps - 1) / ps - 1) < T ∧ T ≤ ps * ((T + ps - 1) / ps) := by
  have hpos : 0 < ps := hps
  have hmod := Nat.mod_lt (T + ps - 1) hpos
  have hdiv := Nat.mod_add_div (T + ps - 1) ps
  constructor
  · rcases Nat.eq_zero_or_pos ((T + ps - 1) / ps) with hk0 | hkpos
    · rw [hk0]
      simpa using hT
    · have hk1 : (T + ps - 1) / ps - 1 + 1 = (T + ps - 1) / ps := by omega
      have hsum : ps * ((T + ps - 1) / ps - 1) + ps = ps * ((T + ps - 1) / ps) := by
        calc ps * ((T + ps - 1) / ps - 1) + ps
            = ps * ((T + ps - 1) / ps - 1 + 1) := by ring
          _ = ps * ((T + ps - 1) / ps) := by rw [hk1]
      omega
  · omega

/-- C5: for every `page ≥ 1` and `1 ≤ page_size ≤ 100`, the GET endpoint
queries the store with `offset = (page - 1) * page_size` and
`limit = page_size` and returns pagination metadata with `total` equal to the
filtered count and `total_pages = ceil(total / page_size)` when `total > 0`
(characterized by `page_size * (total_pages - 1) < total ≤ page_size *
total_pages`), `0` when `total = 0`; a `page_size` above 100 is rejected. -/
theorem C5_pagination_endpoint (page page_size : Nat) (tf sf pf : Option String)
    (table : List NotificationRow)
    (hp : 1 ≤ page) (hps1 : 1 ≤ page_size) (hps2 : page_size ≤ 100) :
    (∃ resp, api_get_notifications page page_size tf sf pf table = .ok resp ∧
      resp.pagination.page = page ∧
      resp.pagination.page_size = page_size ∧
      resp.pagination.total = get_notification_count tf sf pf table ∧
      resp.notifications =
        get_notifications tf sf pf page_size ((page - 1) * page_size) table ∧
      (resp.pagination.total = 0 → resp.pagination.total_pages = 0) ∧
      (0 < resp.pagination.total →
        page_size * (resp.pagination.total_pages - 1) < resp.pagination.total ∧
        resp.pagination.total ≤ page_size * resp.pagination.total_pages)) ∧
    (∀ ps, 100 < ps → api_get_notifications page ps tf sf pf table =
      .error ⟨422, "Input should be less than or equal to 100"⟩) := by
  have hnp : ¬ page < 1 := by omega
  have hnps : ¬ page_size < 1 := by omega
  have hn100 : ¬ 100 < page_size := by omega
  constructor
  · refine ⟨⟨get_notifications tf sf pf page_size ((page - 1) * page_size) table,
      get_notification_count tf sf pf table, page, page_size,
      if 0 < get_notification_count tf sf pf table
        then (get_notification_count tf sf pf table + page_size - 1) / page_size
        else 0⟩, ?_, rfl, rfl, rfl, rfl, ?_, ?_⟩
    · simp only [api_get_notifications, if_neg hnp, if_neg hnps, if_neg hn100]
    · intro h0
      have hz : get_notification_count tf sf pf table = 0 := h0
      show (if 0 < get_notification_count tf sf pf table then _ else 0) = 0
      rw [if_neg (by omega)]
    · intro hT
      have hTc : 0 < get_notification_count tf sf pf table := hT
      have hspec := ceil_div_spec (get_notification_count tf sf pf table) page_size
        hps1 hTc
      simpa [if_pos hTc] using hspec
  · intro ps hps'
    have h2 : ¬ ps < 1 := by omega
    simp [api_get_notifications, hnp, h2, hps']

/-- Witness for C5 at `page = 1`, `page_size = 20` on a one-row table. -/
theorem C5_pagination_endpoint_witness :
    (∃ resp, api_get_notifications 1 20 none none none [c4row] = .ok resp ∧
      resp.pagination.page = 1 ∧
      resp.pagination.page_size = 20 ∧
      resp.pagination.total = get_notification_count none none none [c4row] ∧
      resp.notifications = get_notifications none none none 20 ((1 - 1) * 20) [c4row] ∧
      (resp.pagination.total = 0 → resp.pagination.total_pages = 0) ∧
      (0 < resp.pagination.total →
        20 * (resp.pagination.total_pages - 1) < resp.pagination.total ∧
        resp.pagination.total ≤ 20 * resp.pagination.total_pages)) ∧
    (∀ ps, 100 < ps → api_get_notifications 1 ps none none none [c4row] =
      .error ⟨422, "Input should be less than or equal to 100"⟩) :=
  C5_pagination_endpoint 1 20 none none none [c4row]
    (by decide) (by decide) (by decide)

end CarEmail
